import Mathlib

/-!
Verification of the client-side execution engine of `libsqlite3_turso`,
a shim that forwards SQLite API calls to a remote SQL-over-HTTP/WebSocket
service.  The definitions below are a shallow embedding of the Rust
sources (`src/lib.rs`, `src/sqlite.rs`, `src/utils.rs`,
`src/transport/mod.rs`, `src/transport/http.rs`, `src/transport/wss.rs`).

Modelling conventions:
* Rust `i64`/`i32`/`u64` become `Int`/`Nat` with explicit wrap-around
  where the source performs an `as` cast.
* Rust `String` text that is only inspected byte-wise (keyword
  classification) is modelled as `List Char`; carried text stays `String`.
* `f64` is modelled by an abstract carrier `R` with the four operations
  the engine actually uses (`FloatModel`), since none of the verified
  properties depend on IEEE-754 arithmetic.
* Transport and server behaviour is an input (an oracle value) to the
  functions that consume it, mirroring the `Result` values the Rust
  `send` calls return.
-/

/-- SQLite result codes, from `src/sqlite.rs`. -/
def SQLITE_OK : Int := 0
def SQLITE_ERROR : Int := 1
def SQLITE_MISUSE : Int := 21
def SQLITE_ROW : Int := 100
def SQLITE_DONE : Int := 101
def SQLITE_RANGE : Int := 25
def SQLITE_BUSY : Int := 5
def SQLITE_CANTOPEN : Int := 14

def SQLITE_INTEGER : Int := 1
def SQLITE_FLOAT : Int := 2
def SQLITE_TEXT : Int := 3
def SQLITE_NULL : Int := 5

/-- Abstract model of Rust `f64`: the execution engine only ever
renders a float to a string (`to_string`), casts `i64 -> f64`
(`as f64`), casts `f64 -> i64` (`as i64`) and uses the literal `0.0`. -/
class FloatModel (R : Type) where
  fzero : R
  fofInt : Int → R
  ftoInt : R → Int
  frender : R → String

/-- Witness carrier for `FloatModel`, used to evaluate the generic
definitions on concrete inputs. -/
instance : FloatModel Int where
  fzero := 0
  fofInt := id
  ftoInt := id
  frender := toString

/-- The tagged scalar `Value` from `src/sqlite.rs`. -/
inductive Value (R : Type) where
  | Text (s : String)
  | Integer (i : Int)
  | Real (f : R)
  | Null
deriving DecidableEq

/-- `ExecutionState` from `src/sqlite.rs`. -/
inductive ExecutionState where
  | Prepared
  | Executing
  | Row
  | Done
  | Error (msg : String)
  | Reset
deriving DecidableEq

/-- A typed error `SqliteError { message, code }` from `src/sqlite.rs`;
`SqliteError::new(msg, None)` defaults the code to `SQLITE_ERROR`. -/
structure SqliteError where
  message : String
  code : Int
deriving DecidableEq

/-- The two transport back-ends (`ActiveStrategy` in `src/transport/mod.rs`). -/
inductive ActiveStrategy where
  | Http
  | Websocket
deriving DecidableEq

/-- The mutable portion of the database handle `SQLite3`
(`src/sqlite.rs`).  The hook slots `(callback, user_data)` are opaque to
the engine and modelled by an identifier. -/
structure DbState where
  strategy : ActiveStrategy
  transaction_baton : Option String
  transaction_has_began : Bool
  last_insert_rowid : Option Int
  rows_written : Option Nat
  update_hook : Option Nat
  insert_hook : Option Nat
  delete_hook : Option Nat
deriving DecidableEq

/-- The prepared statement `SQLite3PreparedStmt` (`src/sqlite.rs`).  The
bound-parameter `HashMap<i32, Value>` is modelled as an association
list with unique keys. -/
structure StmtState (R : Type) where
  sql : List Char
  param_count : Int
  params : List (Int × Value R)
  execution_state : ExecutionState
  result_rows : List (List (Value R))
  current_row : Option Nat
  column_names : List String
deriving DecidableEq

/-- A JSON scalar standing for the `serde_json::Value` payloads the
engine inspects.  `composite` stands for any JSON array or object: the
engine only ever asks `as_str` / `as_i64` / `as_f64` / `String` /
`Number` of a cell value, so composite values are never looked into
(JSON numbers are restricted to integers; the engine never produces a
non-integer JSON number and decodes non-integer cells through
`FloatModel`). -/
inductive JsonPrim where
  | null
  | bool (b : Bool)
  | num (n : Int)
  | str (s : String)
  | composite
deriving DecidableEq

/-- The shape of one serialized bound parameter, the object
`json!({"type": t, "value": v})` built by `convert_params_to_json`
(`src/utils.rs`): `atype` is the `"type"` member and `avalue` the
`"value"` member. -/
structure ArgJson where
  atype : String
  avalue : JsonPrim
deriving DecidableEq

/-- `RemoteCol` from `src/transport/mod.rs`. -/
structure RemoteCol where
  name : String
deriving DecidableEq

/-- `RemoteRow { type, value }` from `src/transport/mod.rs` (`rtype`
stands for the raw field `r#type`). -/
structure RemoteRow where
  rtype : String
  value : Option JsonPrim
deriving DecidableEq

/-- `QueryResult` as consumed by `get_execution_result` in
`src/utils.rs` (which reads `cols`, `rows`, `last_insert_rowid` and
`rows_written`); `rows_written` is the server-reported `u64`. -/
structure QueryResult where
  cols : List RemoteCol
  rows : List (List RemoteRow)
  last_insert_rowid : Option String
  rows_written : Option Nat
deriving DecidableEq

/-- `RemoteSQLiteResult` from `src/transport/mod.rs`. -/
inductive RemoteSQLiteResult where
  | Execute (result : QueryResult)
  | Error (message : String) (code : String)
  | Close
deriving DecidableEq

/-- `RemoteSQliteResultType { response }` from `src/transport/mod.rs`. -/
structure RemoteSQliteResultType where
  response : RemoteSQLiteResult
deriving DecidableEq

/-- `RemoteSqliteResponse { baton, results }` from `src/transport/mod.rs`. -/
structure RemoteSqliteResponse where
  baton : Option String
  results : List RemoteSQliteResultType
deriving DecidableEq

/-! ## SQL inspector (`src/utils.rs`) -/

/-- The literal `"PRAGMA"`. -/
def kwPRAGMA : List Char := ['P', 'R', 'A', 'G', 'M', 'A']

/-- The literal `"BEGIN"`. -/
def kwBEGIN : List Char := ['B', 'E', 'G', 'I', 'N']

/-- The literal `"COMMIT"`. -/
def kwCOMMIT : List Char := ['C', 'O', 'M', 'M', 'I', 'T']

/-- The literal `"ROLLBACK"`. -/
def kwROLLBACK : List Char := ['R', 'O', 'L', 'L', 'B', 'A', 'C', 'K']

/-- `sql_is_begin_transaction` (`src/utils.rs`): `sql.starts_with("BEGIN")`. -/
def sql_is_begin_transaction (sql : List Char) : Bool := kwBEGIN.isPrefixOf sql

/-- `sql_is_pragma` (`src/utils.rs`): `sql.starts_with("PRAGMA")`. -/
def sql_is_pragma (sql : List Char) : Bool := kwPRAGMA.isPrefixOf sql

/-- `sql_is_rollback` (`src/utils.rs`): `sql.starts_with("ROLLBACK")`. -/
def sql_is_rollback (sql : List Char) : Bool := kwROLLBACK.isPrefixOf sql

/-- `sql_is_commit` (`src/utils.rs`): `sql.starts_with("COMMIT")`. -/
def sql_is_commit (sql : List Char) : Bool := kwCOMMIT.isPrefixOf sql

/-- Rust `String::to_uppercase`, restricted to its behaviour on ASCII
text (character-wise upper-casing), which is all the keyword
classification relies on. -/
def to_uppercase (sql : List Char) : List Char := sql.map Char.toUpper

/-- The five-way leading-keyword outcome the spec names
`{Pragma, Begin, Commit, Rollback, Other}`. -/
inductive Keyword where
  | Pragma
  | Begin
  | Commit
  | Rollback
  | Other
deriving DecidableEq

/-- The keyword dispatch performed by `sqlite3_exec` (`src/lib.rs`
lines 675-683): the raw SQL text is tested, in order, with
`sql_is_pragma`, `sql_is_begin_transaction`, `sql_is_rollback`,
`sql_is_commit`; no case folding and no whitespace trimming happen. -/
def classify_exec (sql : List Char) : Keyword :=
  if sql_is_pragma sql then .Pragma
  else if sql_is_begin_transaction sql then .Begin
  else if sql_is_rollback sql then .Rollback
  else if sql_is_commit sql then .Commit
  else .Other

/-- The keyword dispatch performed by `sqlite3_step` (`src/lib.rs`
lines 302-311): the SQL is first upper-cased in full, then tested with
`sql_is_begin_transaction` and `sql_is_commit`; everything else runs
through `execute_stmt`. -/
def classify_step (sql : List Char) : Keyword :=
  let sqlU := to_uppercase sql
  if sql_is_begin_transaction sqlU then .Begin
  else if sql_is_commit sqlU then .Commit
  else .Other

/-! ## Integer parsing and casts -/

def I64_MAX : Int := 9223372036854775807
def I64_MIN : Int := -9223372036854775808

/-- Digit-string accumulator for `parseI64`. -/
def digitsValAux : Nat → List Char → Option Nat
  | acc, [] => some acc
  | acc, c :: rest =>
    if c.isDigit then digitsValAux (acc * 10 + (c.toNat - 48)) rest else none

/-- Value of a non-empty all-digit character list. -/
def digitsVal : List Char → Option Nat
  | [] => none
  | l => digitsValAux 0 l

/-- Rust `str::parse::<i64>()`: an optional single leading `+`/`-`
followed by one or more ASCII digits, rejected on `i64` overflow. -/
def parseI64 (s : String) : Option Int :=
  match s.toList with
  | [] => none
  | '+' :: rest =>
    (digitsVal rest).bind fun n => if (n : Int) ≤ I64_MAX then some (n : Int) else none
  | '-' :: rest =>
    (digitsVal rest).bind fun n => if (n : Int) ≤ -I64_MIN then some (-(n : Int)) else none
  | l =>
    (digitsVal l).bind fun n => if (n : Int) ≤ I64_MAX then some (n : Int) else none

/-- Rust `u64 as i32` (`rows_written.unwrap() as c_int` in
`sqlite3_changes`): keep the low 32 bits, two's complement. -/
def u64_as_i32 (n : Nat) : Int :=
  if (n : Int) % 4294967296 < 2147483648 then (n : Int) % 4294967296
  else (n : Int) % 4294967296 - 4294967296

/-- Rust `i32 as usize` (`col_index as usize` in the column read-out
functions): two's complement reinterpretation on 64-bit targets. -/
def i32_to_usize (ci : Int) : Nat := (ci % 18446744073709551616).toNat

/-- Rust `serde_json::Number::as_i64` on our integer-only JSON numbers:
the value when it fits in `i64`, otherwise `None` (decoded to 0 by
`unwrap_or(0)` at the call site, folded in here). -/
def json_num_as_i64_or_zero (n : Int) : Int :=
  if I64_MIN ≤ n ∧ n ≤ I64_MAX then n else 0

/-- `serde_json::Value::as_f64().unwrap_or(0.0)`. -/
def json_as_f64 {R : Type} [FloatModel R] : JsonPrim → R
  | .num n => FloatModel.fofInt n
  | _ => FloatModel.fzero

/-- `serde_json::Value::as_str().unwrap_or("")`. -/
def json_as_str : JsonPrim → String
  | .str s => s
  | _ => ""

/-! ## Bound-parameter map -/

/-- `HashMap::insert` on the association-list model: the binding for
`k` is replaced if present, added otherwise. -/
def insertParam {R : Type} (k : Int) (v : Value R) (l : List (Int × Value R)) :
    List (Int × Value R) :=
  (k, v) :: l.filter (fun p => p.1 ≠ k)

/-- `HashMap::get` on the association-list model. -/
def lookupParam {R : Type} (k : Int) (l : List (Int × Value R)) : Option (Value R) :=
  (l.find? (fun p => p.1 = k)).map Prod.snd

/-- One `{type, value}` argument object, `convert_params_to_json`
(`src/utils.rs` lines 90-108): integers and floats are transmitted as
strings, text as itself, null as JSON null. -/
def valueToArgJson {R : Type} [FloatModel R] : Value R → ArgJson
  | .Integer i => ⟨"integer", .str (toString i)⟩
  | .Real f => ⟨"float", .str (FloatModel.frender f)⟩
  | .Text s => ⟨"text", .str s⟩
  | .Null => ⟨"null", .null⟩

/-- One step of the by-key insertion sort modelling
`sort_by_key(|&(k, _)| *k)`. -/
def insertByKey {R : Type} (p : Int × Value R) :
    List (Int × Value R) → List (Int × Value R)
  | [] => [p]
  | q :: rest => if q.1 ≤ p.1 then q :: insertByKey p rest else p :: q :: rest

/-- Sort the parameter entries by index ascending (`sort_by_key` in
`convert_params_to_json`). -/
def sortByKey {R : Type} (l : List (Int × Value R)) : List (Int × Value R) :=
  l.foldr insertByKey []

/-- `convert_params_to_json` (`src/utils.rs`): sort the bound
parameters by index ascending, then serialize each value. -/
def convert_params_to_json {R : Type} [FloatModel R]
    (params : List (Int × Value R)) : List ArgJson :=
  (sortByKey params).map (fun p => valueToArgJson p.2)

/-! ## Statement-level entry points (`src/lib.rs`) -/

/-- `sqlite3_bind_int64` (`src/lib.rs` lines 241-258): out-of-range
index yields `SQLITE_RANGE` without touching the map, otherwise the
integer is stored under the index. -/
def sqlite3_bind_int64 {R : Type} (stmt : StmtState R) (index : Int) (value : Int) :
    StmtState R × Int :=
  if index ≤ 0 ∨ index > stmt.param_count then (stmt, SQLITE_RANGE)
  else ({stmt with params := insertParam index (.Integer value) stmt.params}, SQLITE_OK)

/-- `sqlite3_bind_double` (`src/lib.rs` lines 221-238). -/
def sqlite3_bind_double {R : Type} (stmt : StmtState R) (index : Int) (value : R) :
    StmtState R × Int :=
  if index ≤ 0 ∨ index > stmt.param_count then (stmt, SQLITE_RANGE)
  else ({stmt with params := insertParam index (.Real value) stmt.params}, SQLITE_OK)

/-- `sqlite3_bind_text` (`src/lib.rs` lines 190-218), after the FFI
layer has marshalled the byte buffer into a string (byte marshalling
and the invalid-UTF-8 `SQLITE_MISUSE` exit live at the out-of-scope FFI
boundary). -/
def sqlite3_bind_text {R : Type} (stmt : StmtState R) (index : Int) (text : String) :
    StmtState R × Int :=
  if index ≤ 0 ∨ index > stmt.param_count then (stmt, SQLITE_RANGE)
  else ({stmt with params := insertParam index (.Text text) stmt.params}, SQLITE_OK)

/-- `sqlite3_bind_null` (`src/lib.rs` lines 261-274). -/
def sqlite3_bind_null {R : Type} (stmt : StmtState R) (index : Int) :
    StmtState R × Int :=
  if index ≤ 0 ∨ index > stmt.param_count then (stmt, SQLITE_RANGE)
  else ({stmt with params := insertParam index .Null stmt.params}, SQLITE_OK)

/-- `sqlite3_reset` (`src/lib.rs` lines 356-380): the execution state
is set back to `Prepared` and the parameter map, result rows and
column names are cleared.  The source never touches `current_row`. -/
def sqlite3_reset {R : Type} (stmt : StmtState R) : StmtState R × Int :=
  ({stmt with
      execution_state := .Prepared,
      params := [],
      result_rows := [],
      column_names := []},
   SQLITE_OK)

/-- `iterate_rows` (`src/sqlite.rs` lines 220-264): advance the cursor
over the buffered result set, updating the execution state. -/
def iterate_rows {R : Type} (stmt : StmtState R) : StmtState R × Int :=
  match stmt.current_row with
  | some row_index =>
    if row_index + 1 < stmt.result_rows.length then
      ({stmt with current_row := some (row_index + 1), execution_state := .Row},
       SQLITE_ROW)
    else
      ({stmt with current_row := none, execution_state := .Done}, SQLITE_DONE)
  | none =>
    if stmt.result_rows.isEmpty then
      ({stmt with execution_state := .Done}, SQLITE_DONE)
    else
      ({stmt with current_row := some 0, execution_state := .Row}, SQLITE_ROW)

/-! ## Result absorption (`src/utils.rs`, `src/sqlite.rs`) -/

/-- The cell decoder inside `execute_stmt` (`src/sqlite.rs` lines
326-346): decode one `RemoteRow` by its advertised `type`. -/
def decodeCell {R : Type} [FloatModel R] (cell : RemoteRow) : Value R :=
  match cell.value with
  | none => .Null
  | some v =>
    match cell.rtype with
    | "integer" =>
      match v with
      | .str s => .Integer ((parseI64 s).getD 0)
      | .num n => .Integer (json_num_as_i64_or_zero n)
      | _ => .Integer 0
    | "float" => .Real (json_as_f64 v)
    | "text" => .Text (json_as_str v)
    | "null" => .Null
    | _ => .Null

/-- `get_execution_result` (`src/utils.rs` lines 112-153): store a new
baton if the response carries one (unconditionally, before any error
check), pick the first result, fail on `Error`/`Close`/absence,
otherwise absorb `last_insert_rowid` (parsed, 0 on parse failure) and
`rows_written` into the handle. -/
def get_execution_result (db : DbState) (result : RemoteSqliteResponse) :
    DbState × Except SqliteError QueryResult :=
  let db1 := match result.baton with
    | some new_baton => {db with transaction_baton := some new_baton}
    | none => db
  match result.results.head? with
  | none => (db1, .error ⟨"No results returned from remote SQLite", SQLITE_ERROR⟩)
  | some inner =>
    match inner.response with
    | .Error message code =>
      (db1, .error ⟨"Remote SQLite error (code " ++ code ++ "): " ++ message,
                    SQLITE_ERROR⟩)
    | .Close =>
      (db1, .error ⟨"Remote SQLite closed the connection unexpectedly", SQLITE_ERROR⟩)
    | .Execute q =>
      let db2 := match q.last_insert_rowid with
        | some rowidStr => {db1 with last_insert_rowid := some ((parseI64 rowidStr).getD 0)}
        | none => db1
      let db3 := match q.rows_written with
        | some n => {db2 with rows_written := some n}
        | none => db2
      (db3, .ok q)

/-! ## Transports (`src/transport/wss.rs`, `src/transport/http.rs`) -/

/-- What one WebSocket `send` attempt amounts to, as seen by
`WebSocketStrategy::send` (`src/transport/wss.rs` lines 234-307):
either a transport-level failure (disconnected socket, open-stream
failure, bus timeout, unparsable frame) or the parsed inner response
frame delivered by the response bus. -/
inductive TransportOutcome where
  | transportFailure (msg : String)
  | reply (r : RemoteSQLiteResult)
deriving DecidableEq

/-- `WebSocketStrategy::send` (`src/transport/wss.rs` lines 234-307):
a delivered `Error` or `Close` inner response is turned into an `Err`;
a delivered `Execute` is re-wrapped as a `RemoteSqliteResponse` with no
baton and a single result. -/
def wss_send (outcome : TransportOutcome) : Except SqliteError RemoteSqliteResponse :=
  match outcome with
  | .transportFailure msg => .error ⟨msg, SQLITE_ERROR⟩
  | .reply (.Error message code) =>
    .error ⟨"Remote SQLite error (code " ++ code ++ "): " ++ message, SQLITE_ERROR⟩
  | .reply .Close =>
    .error ⟨"Remote SQLite closed the connection unexpectedly", SQLITE_ERROR⟩
  | .reply (.Execute result) => .ok ⟨none, [⟨.Execute result⟩]⟩

/-- The transport outcomes available to one execution: what the
WebSocket back-end would deliver and what the HTTP back-end would
return (`HttpStrategy::send` already folds its bounded retry into a
single `Result`). -/
structure SendOracle where
  ws : TransportOutcome
  httpResult : Except SqliteError RemoteSqliteResponse

/-- `SqliteError`'s `Display` rendering, used when the HTTP error is
re-wrapped by `execute_sql_and_params`. -/
def sqliteErrorDisplay (e : SqliteError) : String :=
  "SQLite error (code " ++ toString e.code ++ "): " ++ e.message

/-- `execute_sql_and_params` (`src/sqlite.rs` lines 357-381): on the
WebSocket strategy, any `Err` from `send` permanently switches the
handle to HTTP before surfacing the error; on the HTTP strategy an
`Err` is re-wrapped with code `SQLITE_ERROR`. -/
def execute_sql_and_params (db : DbState) (o : SendOracle) :
    DbState × Except SqliteError RemoteSqliteResponse :=
  match db.strategy with
  | .Websocket =>
    match wss_send o.ws with
    | .ok response => (db, .ok response)
    | .error err => ({db with strategy := .Http}, .error err)
  | .Http =>
    match o.httpResult with
    | .ok response => (db, .ok response)
    | .error e => (db, .error ⟨sqliteErrorDisplay e, SQLITE_ERROR⟩)

/-! ## Transaction control and execution (`src/sqlite.rs`) -/

/-- `reset_txn_on_db` (`src/sqlite.rs` lines 207-218): if no
transaction is active the handle is untouched; otherwise the flag is
cleared and the baton dropped.  Always returns `SQLITE_OK` and never
contacts the server. -/
def reset_txn_on_db (db : DbState) : DbState × Int :=
  if db.transaction_has_began then
    ({db with transaction_has_began := false, transaction_baton := none}, SQLITE_OK)
  else
    (db, SQLITE_OK)

/-- `begin_tnx_on_db` (`src/sqlite.rs` lines 275-290).  The third
component records whether the transport was contacted
(`get_transaction_baton` is only reached when no transaction is
active). -/
def begin_tnx_on_db (db : DbState) (batonResult : Except SqliteError String) :
    DbState × Except SqliteError Int × Bool :=
  if db.transaction_has_began then
    (db, .error ⟨"A transaction is already active.", SQLITE_BUSY⟩, false)
  else
    match batonResult with
    | .error e => (db, .error e, true)
    | .ok baton_value =>
      ({db with transaction_baton := some baton_value, transaction_has_began := true},
       .ok SQLITE_OK, true)

/-- `commit_tnx_on_db` (`src/sqlite.rs` lines 292-309): error when no
transaction is active (before any send); otherwise send the SQL through
`execute_sql_and_params`, then drop the baton and run
`reset_txn_on_db`.  The response itself is discarded unabsorbed. -/
def commit_tnx_on_db (db : DbState) (o : SendOracle) :
    DbState × Except SqliteError Int × Bool :=
  if db.transaction_has_began then
    match execute_sql_and_params db o with
    | (db1, .error e) => (db1, .error e, true)
    | (db1, .ok _response) =>
      ((reset_txn_on_db {db1 with transaction_baton := none}).1, .ok SQLITE_OK, true)
  else
    (db, .error ⟨"No transaction is currently active.", SQLITE_ERROR⟩, false)

/-- `execute_stmt` (`src/sqlite.rs` lines 311-355): serialize the
bound parameters (`convert_params_to_json`, part of the wire request
summarized by the oracle), send, absorb the execution result into the
handle, then record the column names and the decoded rows on the
statement. -/
def execute_stmt {R : Type} [FloatModel R] (db : DbState) (stmt : StmtState R)
    (o : SendOracle) : DbState × StmtState R × Except SqliteError Int :=
  match execute_sql_and_params db o with
  | (db1, .error e) => (db1, stmt, .error e)
  | (db1, .ok response) =>
    match get_execution_result db1 response with
    | (db2, .error e) => (db2, stmt, .error e)
    | (db2, .ok q) =>
      (db2,
       {stmt with
          column_names := q.cols.map RemoteCol.name,
          result_rows := q.rows.map (List.map decodeCell)},
       .ok SQLITE_OK)

/-- `handle_execute` (`src/sqlite.rs` lines 266-273): run
`execute_stmt` on a throw-away statement; only the handle effects
survive. -/
def handle_execute (db : DbState) (o : SendOracle) : DbState × Except SqliteError Int :=
  match execute_sql_and_params db o with
  | (db1, .error e) => (db1, .error e)
  | (db1, .ok response) =>
    match get_execution_result db1 response with
    | (db2, .error e) => (db2, .error e)
    | (db2, .ok _q) => (db2, .ok SQLITE_OK)

/-- `execute_async_task` (`src/utils.rs` lines 41-55): an `Ok` code is
returned as-is; an `Err` is pushed on the process error stack (not
modelled) and collapsed to `SQLITE_ERROR`. -/
def execute_async_task (r : Except SqliteError Int) : Int :=
  match r with
  | .ok code => code
  | .error _ => SQLITE_ERROR

/-- The per-step transport oracle: the baton a `BEGIN` would obtain and
the send outcomes an execute/commit would see. -/
structure StepOracle where
  batonResult : Except SqliteError String
  send : SendOracle

/-- `sqlite3_step` (`src/lib.rs` lines 277-325).  Returns the updated
handle and statement, the result code, and whether the statement was
(re-)executed (the `needs_execution` dispatch was entered).
From `Done` the call returns `SQLITE_DONE` immediately; from
`Executing`, `Error` or `Reset` it returns `SQLITE_MISUSE`; from
`Prepared` the state is first set to `Executing`, and execution is
dispatched on the upper-cased SQL only when the buffered result set is
empty, after which `iterate_rows` advances the cursor. -/
def sqlite3_step {R : Type} [FloatModel R] (o : StepOracle) (db : DbState)
    (stmt : StmtState R) : DbState × StmtState R × Int × Bool :=
  match stmt.execution_state with
  | .Done => (db, stmt, SQLITE_DONE, false)
  | .Prepared | .Row =>
    let stmt1 :=
      if stmt.execution_state = ExecutionState.Prepared then
        {stmt with execution_state := .Executing}
      else stmt
    if stmt1.result_rows.isEmpty then
      let sqlU := to_uppercase stmt1.sql
      if sql_is_begin_transaction sqlU then
        match begin_tnx_on_db db o.batonResult with
        | (db1, r, _) =>
          match r with
          | .ok _ =>
            let (stmt2, code) := iterate_rows stmt1
            (db1, stmt2, code, true)
          | .error _ => (db1, stmt1, SQLITE_ERROR, true)
      else if sql_is_commit sqlU then
        match commit_tnx_on_db db o.send with
        | (db1, r, _) =>
          match r with
          | .ok _ =>
            let (stmt2, code) := iterate_rows stmt1
            (db1, stmt2, code, true)
          | .error _ => (db1, stmt1, SQLITE_ERROR, true)
      else
        match execute_stmt db stmt1 o.send with
        | (db1, stmt2, .ok _) =>
          let (stmt3, code) := iterate_rows stmt2
          (db1, stmt3, code, true)
        | (db1, stmt2, .error _) => (db1, stmt2, SQLITE_ERROR, true)
    else
      let (stmt2, code) := iterate_rows stmt1
      (db, stmt2, code, false)
  | _ => (db, stmt, SQLITE_MISUSE, false)

/-- `sqlite3_exec` (`src/lib.rs` lines 660-686).  The third component
records whether the server was contacted at all: `PRAGMA` and
`ROLLBACK` are handled purely locally. -/
def sqlite3_exec (db : DbState) (sql : List Char) (o : StepOracle) :
    DbState × Int × Bool :=
  if sql_is_pragma sql then (db, SQLITE_OK, false)
  else if sql_is_begin_transaction sql then
    match begin_tnx_on_db db o.batonResult with
    | (db1, r, contacted) => (db1, execute_async_task r, contacted)
  else if sql_is_rollback sql then
    match reset_txn_on_db db with
    | (db1, code) => (db1, code, false)
  else if sql_is_commit sql then
    match commit_tnx_on_db db o.send with
    | (db1, r, contacted) => (db1, execute_async_task r, contacted)
  else
    match handle_execute db o.send with
    | (db1, r) => (db1, execute_async_task r, true)

/-! ## Handle read-outs (`src/lib.rs`) -/

/-- `sqlite3_get_autocommit` (`src/lib.rs` lines 730-742): 0 when
`has_began_transaction()`, else 1. -/
def sqlite3_get_autocommit (db : DbState) : Int :=
  if db.transaction_has_began then 0 else 1

/-- `sqlite3_changes` (`src/lib.rs` lines 408-421): the stored
`rows_written` cast `u64 -> c_int`, or 0 when none is stored. -/
def sqlite3_changes (db : DbState) : Int :=
  match db.rows_written with
  | some n => u64_as_i32 n
  | none => 0

/-- `sqlite3_last_insert_rowid` (`src/lib.rs` lines 339-353): the
stored row id, or 0 when none is stored. -/
def sqlite3_last_insert_rowid (db : DbState) : Int :=
  match db.last_insert_rowid with
  | some row_id => row_id
  | none => 0

/-! ## Column read-outs (`src/lib.rs`) -/

/-- The cell lookup shared verbatim by the four column read-out
functions (`src/lib.rs`): the current row, if any, is fetched from the
buffered result set, and the column is fetched with
`row.get(col_index as usize)`; every miss falls through to the
function's default. -/
def column_cell {R : Type} (stmt : StmtState R) (col_index : Int) : Option (Value R) :=
  match stmt.current_row with
  | some row_index =>
    match stmt.result_rows.get? row_index with
    | some row => row.get? (i32_to_usize col_index)
    | none => none
  | none => none

/-- `sqlite3_column_type` (`src/lib.rs` lines 434-461). -/
def sqlite3_column_type {R : Type} (stmt : StmtState R) (col_index : Int) : Int :=
  match column_cell stmt col_index with
  | some (.Integer _) => SQLITE_INTEGER
  | some (.Real _) => SQLITE_FLOAT
  | some (.Text _) => SQLITE_TEXT
  | some .Null => SQLITE_NULL
  | none => SQLITE_NULL

/-- `sqlite3_column_bytes` (`src/lib.rs` lines 464-491): UTF-8 byte
count for text, 8 for the two numeric types, 0 for null and for every
miss. -/
def sqlite3_column_bytes {R : Type} (stmt : StmtState R) (col_index : Int) : Int :=
  match column_cell stmt col_index with
  | some (.Text s) => (s.utf8ByteSize : Int)
  | some (.Integer _) => 8
  | some (.Real _) => 8
  | some .Null => 0
  | none => 0

/-- `sqlite3_column_int64` (`src/lib.rs` lines 557-583). -/
def sqlite3_column_int64 {R : Type} [FloatModel R] (stmt : StmtState R)
    (col_index : Int) : Int :=
  match column_cell stmt col_index with
  | some (.Integer i) => i
  | some (.Real f) => FloatModel.ftoInt f
  | some (.Text _) => 0
  | some .Null => 0
  | none => 0

/-- `sqlite3_column_double` (`src/lib.rs` lines 529-554). -/
def sqlite3_column_double {R : Type} [FloatModel R] (stmt : StmtState R)
    (col_index : Int) : R :=
  match column_cell stmt col_index with
  | some (.Real f) => f
  | some (.Integer i) => FloatModel.fofInt i
  | some (.Text _) => FloatModel.fzero
  | some .Null => FloatModel.fzero
  | none => FloatModel.fzero

/-! ## Claims -/

/-- Looking up a key right after `insertParam` stores it yields the
stored value. -/
lemma lookupParam_insertParam {R : Type} (k : Int) (v : Value R)
    (l : List (Int × Value R)) : lookupParam k (insertParam k v l) = some v := by
  unfold lookupParam insertParam
  rw [List.find?_cons_of_pos]
  · rfl
  · simp

/-- A statement sitting on its first result row, used to exhibit the
behaviour of `sqlite3_reset` on a statement with a present cursor. -/
def c2_stmt : StmtState Int where
  sql := String.toList "SELECT x FROM t"
  param_count := 0
  params := []
  execution_state := .Row
  result_rows := [[Value.Integer 7]]
  current_row := some 0
  column_names := ["x"]

/-- C2, counterexample: the claim says that after `reset` the row
cursor is absent, but `sqlite3_reset` never touches `current_row`: on a
statement whose cursor sits on row 0 the cursor is still present after
the reset. -/
theorem C2_counterexample : (sqlite3_reset c2_stmt).1.current_row ≠ none := by
  decide

/-- C2, amended: after `reset` the bound-parameter map is empty, the
result-row buffer is empty, the column-name list is empty and the
execution state is `Prepared`, and the call returns `SQLITE_OK`; the
row cursor, however, is left exactly as it was (as are the SQL text and
the parameter count). -/
theorem C2_reset_amended {R : Type} (s : StmtState R) :
    (sqlite3_reset s).1.params = [] ∧
    (sqlite3_reset s).1.result_rows = [] ∧
    (sqlite3_reset s).1.column_names = [] ∧
    (sqlite3_reset s).1.execution_state = .Prepared ∧
    (sqlite3_reset s).1.current_row = s.current_row ∧
    (sqlite3_reset s).1.sql = s.sql ∧
    (sqlite3_reset s).1.param_count = s.param_count ∧
    (sqlite3_reset s).2 = SQLITE_OK :=
  ⟨rfl, rfl, rfl, rfl, rfl, rfl, rfl, rfl⟩

/-- C5: a bind (`bind_int64`, `bind_double`, `bind_text`, `bind_null`)
whose index lies outside `[1, param_count]` returns `SQLITE_RANGE` and
leaves the statement (in particular its parameter map) unchanged; a
bind whose index lies inside the range returns `SQLITE_OK` and stores
the value under that index. -/
theorem C5_bind_range_check {R : Type} (s : StmtState R) (i x : Int) (f : R)
    (t : String) :
    ((i ≤ 0 ∨ i > s.param_count) →
       sqlite3_bind_int64 s i x = (s, SQLITE_RANGE) ∧
       sqlite3_bind_double s i f = (s, SQLITE_RANGE) ∧
       sqlite3_bind_text s i t = (s, SQLITE_RANGE) ∧
       sqlite3_bind_null s i = (s, SQLITE_RANGE)) ∧
    (1 ≤ i ∧ i ≤ s.param_count →
       (sqlite3_bind_int64 s i x).2 = SQLITE_OK ∧
       lookupParam i (sqlite3_bind_int64 s i x).1.params = some (Value.Integer x) ∧
       (sqlite3_bind_double s i f).2 = SQLITE_OK ∧
       lookupParam i (sqlite3_bind_double s i f).1.params = some (Value.Real f) ∧
       (sqlite3_bind_text s i t).2 = SQLITE_OK ∧
       lookupParam i (sqlite3_bind_text s i t).1.params = some (Value.Text t) ∧
       (sqlite3_bind_null s i).2 = SQLITE_OK ∧
       lookupParam i (sqlite3_bind_null s i).1.params = some Value.Null) := by
  constructor
  · intro h
    refine ⟨?_, ?_, ?_, ?_⟩ <;>
      simp only [sqlite3_bind_int64, sqlite3_bind_double, sqlite3_bind_text,
        sqlite3_bind_null, if_pos h]
  · intro h
    have hcond : ¬(i ≤ 0 ∨ i > s.param_count) := by omega
    refine ⟨?_, ?_, ?_, ?_, ?_, ?_, ?_, ?_⟩ <;>
      simp only [sqlite3_bind_int64, sqlite3_bind_double, sqlite3_bind_text,
        sqlite3_bind_null, if_neg hcond] <;>
      exact lookupParam_insertParam i _ s.params

/-- A two-parameter statement used to instantiate `C5_bind_range_check`. -/
def c5_stmt : StmtState Int where
  sql := String.toList "INSERT INTO t VALUES (?1, ?2)"
  param_count := 2
  params := []
  execution_state := .Prepared
  result_rows := []
  current_row := none
  column_names := []

/-- C5, witness: both directions of `C5_bind_range_check` evaluated on
a concrete two-parameter statement, at index 3 (out of range) and index
1 (in range). -/
theorem C5_bind_range_check_witness :
    sqlite3_bind_int64 c5_stmt 3 9 = (c5_stmt, SQLITE_RANGE) ∧
    (sqlite3_bind_int64 c5_stmt 1 9).2 = SQLITE_OK ∧
    lookupParam 1 (sqlite3_bind_int64 c5_stmt 1 9).1.params =
      some (Value.Integer 9) :=
  ⟨((C5_bind_range_check c5_stmt 3 9 0 "a").1 (by decide)).1,
   ((C5_bind_range_check c5_stmt 1 9 0 "a").2 (by decide)).1,
   ((C5_bind_range_check c5_stmt 1 9 0 "a").2 (by decide)).2.1⟩

/-- A handle whose active strategy is WebSocket, with no transaction. -/
def c4_db : DbState where
  strategy := .Websocket
  transaction_baton := none
  transaction_has_began := false
  last_insert_rowid := none
  rows_written := none
  update_hook := none
  insert_hook := none
  delete_hook := none

/-- A send whose WebSocket leg delivers a server-side SQL error
(an `Execute`-level `Error` result frame). -/
def c4_oracle : SendOracle where
  ws := .reply (.Error "no such table: t" "SQLITE_ERROR")
  httpResult := .ok ⟨none, []⟩

/-- C4, counterexample: the claim says a server-side SQL error over
WebSocket is surfaced while the strategy stays WebSocket; in the code
`WebSocketStrategy::send` converts a delivered `Error` result into an
`Err`, and `execute_sql_and_params` switches the handle to HTTP on any
`Err` from the WebSocket leg — so after a server-side SQL error the
active strategy is HTTP, not WebSocket. -/
theorem C4_counterexample :
    (execute_sql_and_params c4_db c4_oracle).1.strategy = ActiveStrategy.Http ∧
    ActiveStrategy.Http ≠ ActiveStrategy.Websocket ∧
    (∃ e, (execute_sql_and_params c4_db c4_oracle).2 = .error e) :=
  ⟨rfl, by decide, ⟨_, rfl⟩⟩

/-- C4, amended: when the active strategy is WebSocket, every error
surfaced by the WebSocket send — a transport-level failure, but equally
a server-side `Error` result or an unexpected `Close` — is returned to
the caller and switches the handle's strategy to HTTP; only a
successful send leaves the handle on WebSocket (and carries the
re-wrapped `Execute` response). -/
theorem C4_ws_error_switches_to_http (db : DbState) (o : SendOracle)
    (h : db.strategy = ActiveStrategy.Websocket) :
    (∀ m c, o.ws = .reply (.Error m c) →
       (execute_sql_and_params db o).1.strategy = ActiveStrategy.Http ∧
       ∃ e, (execute_sql_and_params db o).2 = .error e) ∧
    (∀ m, o.ws = .transportFailure m →
       (execute_sql_and_params db o).1.strategy = ActiveStrategy.Http ∧
       ∃ e, (execute_sql_and_params db o).2 = .error e) ∧
    (o.ws = .reply .Close →
       (execute_sql_and_params db o).1.strategy = ActiveStrategy.Http ∧
       ∃ e, (execute_sql_and_params db o).2 = .error e) ∧
    (∀ q, o.ws = .reply (.Execute q) →
       (execute_sql_and_params db o).1 = db ∧
       (execute_sql_and_params db o).2 = .ok ⟨none, [⟨.Execute q⟩]⟩) := by
  refine ⟨?_, ?_, ?_, ?_⟩
  · intro m c hws
    simp [execute_sql_and_params, h, hws, wss_send]
  · intro m hws
    simp [execute_sql_and_params, h, hws, wss_send]
  · intro hws
    simp [execute_sql_and_params, h, hws, wss_send]
  · intro q hws
    simp [execute_sql_and_params, h, hws, wss_send]

/-- C4, witness: `C4_ws_error_switches_to_http` applied to the concrete
WebSocket handle and the concrete server-side-error send. -/
theorem C4_ws_error_switches_to_http_witness :
    (execute_sql_and_params c4_db c4_oracle).1.strategy = ActiveStrategy.Http ∧
    ∃ e, (execute_sql_and_params c4_db c4_oracle).2 = .error e :=
  (C4_ws_error_switches_to_http c4_db c4_oracle rfl).1
    "no such table: t" "SQLITE_ERROR" rfl

/-- A non-empty keyword can only be a prefix of a string that starts
with the keyword's first character. -/
lemma prefix_head {c : Char} {t l : List Char}
    (h : List.isPrefixOf (c :: t) l = true) : l.head? = some c := by
  cases l with
  | nil => simp [List.isPrefixOf] at h
  | cons b bs =>
    simp only [List.isPrefixOf, Bool.and_eq_true, beq_iff_eq] at h
    rw [h.1]
    rfl

/-- A string starting with `PRAGMA` starts with `P`. -/
lemma head_of_pragma {l : List Char} (h : sql_is_pragma l = true) :
    l.head? = some 'P' :=
  prefix_head (show List.isPrefixOf ('P' :: ['R', 'A', 'G', 'M', 'A']) l = true from h)

/-- A string starting with `BEGIN` starts with `B`. -/
lemma head_of_begin {l : List Char} (h : sql_is_begin_transaction l = true) :
    l.head? = some 'B' :=
  prefix_head (show List.isPrefixOf ('B' :: ['E', 'G', 'I', 'N']) l = true from h)

/-- A string starting with `ROLLBACK` starts with `R`. -/
lemma head_of_rollback {l : List Char} (h : sql_is_rollback l = true) :
    l.head? = some 'R' :=
  prefix_head
    (show List.isPrefixOf ('R' :: ['O', 'L', 'L', 'B', 'A', 'C', 'K']) l = true from h)

/-- A string starting with `COMMIT` starts with `C`. -/
lemma head_of_commit {l : List Char} (h : sql_is_commit l = true) :
    l.head? = some 'C' :=
  prefix_head (show List.isPrefixOf ('C' :: ['O', 'M', 'M', 'I', 'T']) l = true from h)

/-- C9, counterexample: the claim says the leading-keyword
classification used by `exec` and `step` skips leading whitespace and
matches case-insensitively, so that both "begin transaction" and
"  BEGIN" classify as Begin.  In the code, `sqlite3_exec` tests the raw
SQL (case-sensitively, from position 0), so "begin transaction" is
Other there, and neither dispatch skips whitespace, so "  BEGIN" is
Other in both. -/
theorem C9_counterexample :
    classify_exec (String.toList "begin transaction") = Keyword.Other ∧
    classify_step (String.toList "  BEGIN") = Keyword.Other ∧
    classify_exec (String.toList "  BEGIN") = Keyword.Other ∧
    Keyword.Other ≠ Keyword.Begin := by
  decide

/-- C9, amended: the classification matches the keyword as a prefix at
position 0 — no whitespace is skipped.  `exec` matches the raw SQL
case-sensitively against `PRAGMA`/`BEGIN`/`ROLLBACK`/`COMMIT`; `step`
upper-cases the whole SQL first (so it is case-insensitive) but only
distinguishes `BEGIN` and `COMMIT`.  Prefix matching does hold, so
"BEGIN TRANSACTION" counts as Begin in both dispatches and
"begin transaction" counts as Begin in the `step` dispatch only. -/
theorem C9_classify_characterization (sql : List Char) :
    (classify_exec sql = .Pragma ↔ sql_is_pragma sql = true) ∧
    (classify_exec sql = .Begin ↔ sql_is_begin_transaction sql = true) ∧
    (classify_exec sql = .Rollback ↔ sql_is_rollback sql = true) ∧
    (classify_exec sql = .Commit ↔ sql_is_commit sql = true) ∧
    (classify_step sql = .Begin ↔
       sql_is_begin_transaction (to_uppercase sql) = true) ∧
    (classify_step sql = .Commit ↔ sql_is_commit (to_uppercase sql) = true) ∧
    classify_step sql ≠ .Pragma ∧ classify_step sql ≠ .Rollback := by
  have hexcl : ∀ l : List Char, ∀ c1 c2 : Char, c1 ≠ c2 →
      l.head? = some c1 → l.head? = some c2 → False := by
    intro l c1 c2 hne h1 h2
    rw [h1] at h2
    exact hne (Option.some.inj h2)
  have hexec : (classify_exec sql = .Pragma ↔ sql_is_pragma sql = true) ∧
      (classify_exec sql = .Begin ↔ sql_is_begin_transaction sql = true) ∧
      (classify_exec sql = .Rollback ↔ sql_is_rollback sql = true) ∧
      (classify_exec sql = .Commit ↔ sql_is_commit sql = true) := by
    cases hp : sql_is_pragma sql with
    | true =>
      have hb : sql_is_begin_transaction sql = false := by
        cases hbv : sql_is_begin_transaction sql
        · rfl
        · exact absurd (hexcl sql 'P' 'B' (by decide) (head_of_pragma hp)
            (head_of_begin hbv)) not_false
      have hr : sql_is_rollback sql = false := by
        cases hrv : sql_is_rollback sql
        · rfl
        · exact absurd (hexcl sql 'P' 'R' (by decide) (head_of_pragma hp)
            (head_of_rollback hrv)) not_false
      have hc : sql_is_commit sql = false := by
        cases hcv : sql_is_commit sql
        · rfl
        · exact absurd (hexcl sql 'P' 'C' (by decide) (head_of_pragma hp)
            (head_of_commit hcv)) not_false
      simp [classify_exec, hp, hb, hr, hc]
    | false =>
      cases hb : sql_is_begin_transaction sql with
      | true =>
        have hr : sql_is_rollback sql = false := by
          cases hrv : sql_is_rollback sql
          · rfl
          · exact absurd (hexcl sql 'B' 'R' (by decide) (head_of_begin hb)
              (head_of_rollback hrv)) not_false
        have hc : sql_is_commit sql = false := by
          cases hcv : sql_is_commit sql
          · rfl
          · exact absurd (hexcl sql 'B' 'C' (by decide) (head_of_begin hb)
              (head_of_commit hcv)) not_false
        simp [classify_exec, hp, hb, hr, hc]
      | false =>
        cases hr : sql_is_rollback sql with
        | true =>
          have hc : sql_is_commit sql = false := by
            cases hcv : sql_is_commit sql
            · rfl
            · exact absurd (hexcl sql 'R' 'C' (by decide) (head_of_rollback hr)
                (head_of_commit hcv)) not_false
          simp [classify_exec, hp, hb, hr, hc]
        | false =>
          cases hc : sql_is_commit sql with
          | true => simp [classify_exec, hp, hb, hr, hc]
          | false => simp [classify_exec, hp, hb, hr, hc]
  have hstep : (classify_step sql = .Begin ↔
        sql_is_begin_transaction (to_uppercase sql) = true) ∧
      (classify_step sql = .Commit ↔ sql_is_commit (to_uppercase sql) = true) ∧
      classify_step sql ≠ .Pragma ∧ classify_step sql ≠ .Rollback := by
    cases hbU : sql_is_begin_transaction (to_uppercase sql) with
    | true =>
      have hcU : sql_is_commit (to_uppercase sql) = false := by
        cases hcv : sql_is_commit (to_uppercase sql)
        · rfl
        · exact absurd (hexcl (to_uppercase sql) 'B' 'C' (by decide)
            (head_of_begin hbU) (head_of_commit hcv)) not_false
      simp [classify_step, hbU, hcU]
    | false =>
      cases hcU : sql_is_commit (to_uppercase sql) with
      | true => simp [classify_step, hbU, hcU]
      | false => simp [classify_step, hbU, hcU]
  exact ⟨hexec.1, hexec.2.1, hexec.2.2.1, hexec.2.2.2,
         hstep.1, hstep.2.1, hstep.2.2.1, hstep.2.2.2⟩

/-- C9, witness: the characterization evaluated on the concrete SQL
"BEGIN TRANSACTION" (Begin in both dispatches) and, via the upper-cased
leg, on "begin transaction" (Begin in the `step` dispatch). -/
theorem C9_classify_characterization_witness :
    classify_exec (String.toList "BEGIN TRANSACTION") = Keyword.Begin ∧
    classify_step (String.toList "begin transaction") = Keyword.Begin :=
  ⟨(C9_classify_characterization (String.toList "BEGIN TRANSACTION")).2.1.mpr
     (by decide),
   (C9_classify_characterization (String.toList "begin transaction")).2.2.2.2.1.mpr
     (by decide)⟩

/-- The spec's handle invariant: a transaction baton is stored exactly
when the transaction-has-began flag is set. -/
def batonFlagConsistent (db : DbState) : Prop :=
  db.transaction_baton.isSome = db.transaction_has_began

/-- `execute_sql_and_params` only ever touches the strategy selector:
baton, flag, row id and row count are untouched by the send itself. -/
lemma execute_sql_and_params_fields (db : DbState) (o : SendOracle) :
    (execute_sql_and_params db o).1.transaction_baton = db.transaction_baton ∧
    (execute_sql_and_params db o).1.transaction_has_began = db.transaction_has_began ∧
    (execute_sql_and_params db o).1.last_insert_rowid = db.last_insert_rowid ∧
    (execute_sql_and_params db o).1.rows_written = db.rows_written := by
  unfold execute_sql_and_params
  cases db.strategy with
  | Websocket =>
    cases wss_send o.ws with
    | ok r => exact ⟨rfl, rfl, rfl, rfl⟩
    | error e => exact ⟨rfl, rfl, rfl, rfl⟩
  | Http =>
    cases o.httpResult with
    | ok r => exact ⟨rfl, rfl, rfl, rfl⟩
    | error e => exact ⟨rfl, rfl, rfl, rfl⟩

/-- `get_execution_result` never touches the transaction flag, the
strategy or the hook slots. -/
lemma get_execution_result_preserves (db : DbState) (resp : RemoteSqliteResponse) :
    (get_execution_result db resp).1.transaction_has_began = db.transaction_has_began ∧
    (get_execution_result db resp).1.strategy = db.strategy ∧
    (get_execution_result db resp).1.update_hook = db.update_hook ∧
    (get_execution_result db resp).1.insert_hook = db.insert_hook ∧
    (get_execution_result db resp).1.delete_hook = db.delete_hook := by
  obtain ⟨baton, results⟩ := resp
  cases results with
  | nil => cases baton <;> exact ⟨rfl, rfl, rfl, rfl, rfl⟩
  | cons r rest =>
    obtain ⟨response⟩ := r
    cases response with
    | Error m c => cases baton <;> exact ⟨rfl, rfl, rfl, rfl, rfl⟩
    | Close => cases baton <;> exact ⟨rfl, rfl, rfl, rfl, rfl⟩
    | Execute q =>
      obtain ⟨cols, rows, rowid, rw⟩ := q
      cases baton <;> cases rowid <;> cases rw <;> exact ⟨rfl, rfl, rfl, rfl, rfl⟩

/-- After `get_execution_result` the stored baton is the response's
baton when one is present, the previous one otherwise. -/
lemma get_execution_result_baton (db : DbState) (resp : RemoteSqliteResponse) :
    (get_execution_result db resp).1.transaction_baton =
      (match resp.baton with
       | some b => some b
       | none => db.transaction_baton) := by
  obtain ⟨baton, results⟩ := resp
  cases results with
  | nil => cases baton <;> rfl
  | cons r rest =>
    obtain ⟨response⟩ := r
    cases response with
    | Error m c => cases baton <;> rfl
    | Close => cases baton <;> rfl
    | Execute q =>
      obtain ⟨cols, rows, rowid, rw⟩ := q
      cases baton <;> cases rowid <;> cases rw <;> rfl

/-- A fresh handle: no baton, no flag (the state `sqlite3_open_v2`
creates). -/
def c3_db : DbState where
  strategy := .Http
  transaction_baton := none
  transaction_has_began := false
  last_insert_rowid := none
  rows_written := none
  update_hook := none
  insert_hook := none
  delete_hook := none

/-- A successful execute response that carries a baton. -/
def c3_resp : RemoteSqliteResponse where
  baton := some "tok"
  results := [⟨.Execute ⟨[], [], none, none⟩⟩]

/-- C3, counterexample: absorbing a successful response that carries a
baton while no transaction is active stores the baton without setting
the flag, so a baton is stored while `transaction_has_began` is false,
and `get_autocommit` returns 1 even though a baton is stored — against
both halves of the claim. -/
theorem C3_counterexample :
    (∃ q, (get_execution_result c3_db c3_resp).2 = .ok q) ∧
    (get_execution_result c3_db c3_resp).1.transaction_baton = some "tok" ∧
    (get_execution_result c3_db c3_resp).1.transaction_has_began = false ∧
    ¬ batonFlagConsistent (get_execution_result c3_db c3_resp).1 ∧
    sqlite3_get_autocommit (get_execution_result c3_db c3_resp).1 = 1 :=
  ⟨⟨_, rfl⟩, rfl, rfl, by unfold batonFlagConsistent; decide, rfl⟩

/-- C3, amended: `get_autocommit` returns 0 exactly when the
transaction-has-began flag is set (it reads the flag, not the baton).
The baton-flag equivalence is preserved by `begin`, `commit` and the
local rollback, and by absorbing a response while a transaction is
active; but absorbing a baton-carrying response while no transaction is
active stores the baton and leaves the flag false, breaking the
equivalence (and `get_autocommit` keeps answering 1 there). -/
theorem C3_autocommit_flag (db : DbState) :
    (sqlite3_get_autocommit db = 0 ↔ db.transaction_has_began = true) ∧
    (∀ batonResult, batonFlagConsistent db →
       batonFlagConsistent (begin_tnx_on_db db batonResult).1) ∧
    (∀ o : SendOracle, batonFlagConsistent db →
       batonFlagConsistent (commit_tnx_on_db db o).1) ∧
    (batonFlagConsistent db → batonFlagConsistent (reset_txn_on_db db).1) ∧
    (∀ resp, db.transaction_has_began = true → batonFlagConsistent db →
       batonFlagConsistent (get_execution_result db resp).1) ∧
    (∀ resp b, db.transaction_has_began = false → resp.baton = some b →
       (get_execution_result db resp).1.transaction_baton = some b ∧
       (get_execution_result db resp).1.transaction_has_began = false ∧
       sqlite3_get_autocommit (get_execution_result db resp).1 = 1) := by
  refine ⟨?_, ?_, ?_, ?_, ?_, ?_⟩
  · unfold sqlite3_get_autocommit
    cases hf : db.transaction_has_began <;> simp [hf]
  · intro batonResult hcons
    unfold batonFlagConsistent at hcons ⊢
    unfold begin_tnx_on_db
    cases hf : db.transaction_has_began with
    | true => exact hcons
    | false =>
      cases batonResult with
      | error e => exact hcons
      | ok b => rfl
  · intro o hcons
    unfold batonFlagConsistent at hcons ⊢
    unfold commit_tnx_on_db
    cases hf : db.transaction_has_began with
    | false => exact hcons
    | true =>
      obtain ⟨e1, e2, _, _⟩ := execute_sql_and_params_fields db o
      cases hsend : execute_sql_and_params db o with
      | mk db1 r =>
        rw [hsend] at e1 e2
        have e1' : db1.transaction_baton = db.transaction_baton := e1
        have e2' : db1.transaction_has_began = db.transaction_has_began := e2
        cases r with
        | error e =>
          show db1.transaction_baton.isSome = db1.transaction_has_began
          rw [e1', e2']
          exact hcons
        | ok resp =>
          have hb1 : db1.transaction_has_began = true := by rw [e2', hf]
          simp [reset_txn_on_db, hb1]
  · intro hcons
    unfold batonFlagConsistent at hcons ⊢
    unfold reset_txn_on_db
    cases hf : db.transaction_has_began with
    | true => rfl
    | false => exact hcons
  · intro resp hf hcons
    unfold batonFlagConsistent at hcons ⊢
    obtain ⟨p1, _, _, _, _⟩ := get_execution_result_preserves db resp
    have hbat := get_execution_result_baton db resp
    rw [p1, hf, hbat]
    cases hb : resp.baton with
    | some b => rfl
    | none =>
      rw [hf] at hcons
      exact hcons
  · intro resp b hf hb
    obtain ⟨p1, _, _, _, _⟩ := get_execution_result_preserves db resp
    have hbat := get_execution_result_baton db resp
    refine ⟨?_, ?_, ?_⟩
    · rw [hbat, hb]
    · rw [p1, hf]
    · unfold sqlite3_get_autocommit
      rw [p1, hf]
      rfl

/-- C3, witness: the amended facts evaluated on the concrete fresh
handle and the concrete baton-carrying response: the absorb leg of
`C3_autocommit_flag` reproduces the stored-baton/flag-false state. -/
theorem C3_autocommit_flag_witness :
    (get_execution_result c3_db c3_resp).1.transaction_baton = some "tok" ∧
    (get_execution_result c3_db c3_resp).1.transaction_has_began = false ∧
    sqlite3_get_autocommit (get_execution_result c3_db c3_resp).1 = 1 :=
  (C3_autocommit_flag c3_db).2.2.2.2.2 c3_resp "tok" rfl rfl

/-- When the first result of a response is an `Execute`, absorbing it
succeeds with that query result; `last_insert_rowid` is parsed (0 on
parse failure) when present and otherwise retains the previously stored
value, and likewise `rows_written`. -/
lemma get_execution_result_execute (db : DbState) (resp : RemoteSqliteResponse)
    (q : QueryResult) (hresp : resp.results.head? = some ⟨.Execute q⟩) :
    (get_execution_result db resp).2 = .ok q ∧
    (get_execution_result db resp).1.last_insert_rowid =
      (match q.last_insert_rowid with
       | some s => some ((parseI64 s).getD 0)
       | none => db.last_insert_rowid) ∧
    (get_execution_result db resp).1.rows_written =
      (match q.rows_written with
       | some n => some n
       | none => db.rows_written) := by
  obtain ⟨baton, results⟩ := resp
  cases results with
  | nil => simp at hresp
  | cons r rest =>
    have hr : r = ⟨.Execute q⟩ := by simpa using hresp
    subst hr
    obtain ⟨cols, rows, rowid, rwr⟩ := q
    cases baton <;> cases rowid <;> cases rwr <;> exact ⟨rfl, rfl, rfl⟩

/-- A handle that has already stored a row id (7) and a row count (3)
from an earlier write. -/
def c6_db : DbState where
  strategy := .Http
  transaction_baton := none
  transaction_has_began := false
  last_insert_rowid := some 7
  rows_written := some 3
  update_hook := none
  insert_hook := none
  delete_hook := none

/-- A successful write response with no `last_insert_rowid` field and a
`rows_written` of 2^31. -/
def c6_resp : RemoteSqliteResponse where
  baton := none
  results := [⟨.Execute ⟨[], [], none, some 2147483648⟩⟩]

/-- C6, counterexample: after absorbing a successful write response
whose `last_insert_rowid` field is absent, `last_insert_rowid()`
returns the previously stored 7, not the 0 the claim requires; and with
a server-reported `rows_written` of 2^31, `changes()` returns the
`u64 -> c_int` truncation -2^31 rather than the reported value. -/
theorem C6_counterexample :
    (∃ q, (get_execution_result c6_db c6_resp).2 = .ok q) ∧
    sqlite3_last_insert_rowid (get_execution_result c6_db c6_resp).1 = 7 ∧
    (7 : Int) ≠ 0 ∧
    sqlite3_changes (get_execution_result c6_db c6_resp).1 = -2147483648 ∧
    (-2147483648 : Int) ≠ 2147483648 := by
  refine ⟨⟨_, rfl⟩, rfl, by decide, ?_, by decide⟩
  show u64_as_i32 2147483648 = -2147483648
  decide

/-- C6, amended: after a successful write (an absorbed `Execute`
result), `changes()` returns the server-reported `rows_written` cast to
a 32-bit signed integer — equal to the reported value whenever it is
below 2^31 — and keeps its previous value when the field is absent;
`last_insert_rowid()` returns the server's `last_insert_rowid` string
parsed as an i64 (0 when the parse fails) when the field is present,
and keeps its previous value when the field is absent. -/
theorem C6_changes_rowid (db : DbState) (resp : RemoteSqliteResponse)
    (q : QueryResult) (hresp : resp.results.head? = some ⟨.Execute q⟩) :
    (get_execution_result db resp).2 = .ok q ∧
    (∀ n, q.rows_written = some n →
       sqlite3_changes (get_execution_result db resp).1 = u64_as_i32 n ∧
       (n < 2147483648 →
         sqlite3_changes (get_execution_result db resp).1 = (n : Int))) ∧
    (q.rows_written = none →
       sqlite3_changes (get_execution_result db resp).1 = sqlite3_changes db) ∧
    (∀ s, q.last_insert_rowid = some s →
       sqlite3_last_insert_rowid (get_execution_result db resp).1 =
         (parseI64 s).getD 0) ∧
    (q.last_insert_rowid = none →
       sqlite3_last_insert_rowid (get_execution_result db resp).1 =
         sqlite3_last_insert_rowid db) := by
  obtain ⟨hok, hrowid, hrw⟩ := get_execution_result_execute db resp q hresp
  refine ⟨hok, ?_, ?_, ?_, ?_⟩
  · intro n hn
    rw [hn] at hrw
    have hchg : sqlite3_changes (get_execution_result db resp).1 = u64_as_i32 n := by
      unfold sqlite3_changes
      rw [hrw]
    refine ⟨hchg, ?_⟩
    intro hlt
    rw [hchg]
    unfold u64_as_i32
    split <;> omega
  · intro hn
    rw [hn] at hrw
    unfold sqlite3_changes
    rw [hrw]
  · intro s hs
    rw [hs] at hrowid
    unfold sqlite3_last_insert_rowid
    rw [hrowid]
  · intro hs
    rw [hs] at hrowid
    unfold sqlite3_last_insert_rowid
    rw [hrowid]

/-- C6, witness: the amended statement evaluated on the concrete handle
and response above (`rows_written` present and huge, rowid field
absent). -/
theorem C6_changes_rowid_witness :
    sqlite3_changes (get_execution_result c6_db c6_resp).1 =
      u64_as_i32 2147483648 ∧
    sqlite3_last_insert_rowid (get_execution_result c6_db c6_resp).1 =
      sqlite3_last_insert_rowid c6_db :=
  ⟨((C6_changes_rowid c6_db c6_resp ⟨[], [], none, some 2147483648⟩ rfl).2.1
      2147483648 rfl).1,
   (C6_changes_rowid c6_db c6_resp ⟨[], [], none, some 2147483648⟩ rfl).2.2.2.2
      rfl⟩

/-- C8: on a handle with an active transaction, `exec` of a SQL string
that classifies as ROLLBACK resets the flag and drops the baton purely
locally — the result code is `SQLITE_OK`, no transport send happens
(the contacted-server component is `false`), `get_autocommit` answers
1 afterwards, and every other handle field is unchanged. -/
theorem C8_exec_rollback_local (db : DbState) (sql : List Char) (o : StepOracle)
    (hflag : db.transaction_has_began = true)
    (hsql : sql_is_rollback sql = true) :
    sqlite3_exec db sql o =
      ({db with transaction_has_began := false, transaction_baton := none},
       SQLITE_OK, false) ∧
    sqlite3_get_autocommit (sqlite3_exec db sql o).1 = 1 ∧
    (sqlite3_exec db sql o).1.strategy = db.strategy ∧
    (sqlite3_exec db sql o).1.last_insert_rowid = db.last_insert_rowid ∧
    (sqlite3_exec db sql o).1.rows_written = db.rows_written ∧
    (sqlite3_exec db sql o).1.update_hook = db.update_hook ∧
    (sqlite3_exec db sql o).1.insert_hook = db.insert_hook ∧
    (sqlite3_exec db sql o).1.delete_hook = db.delete_hook := by
  have hp : sql_is_pragma sql = false := by
    cases hpv : sql_is_pragma sql
    · rfl
    · exfalso
      have h1 := head_of_rollback hsql
      have h2 := head_of_pragma hpv
      rw [h1] at h2
      exact absurd (Option.some.inj h2) (by decide)
  have hb : sql_is_begin_transaction sql = false := by
    cases hbv : sql_is_begin_transaction sql
    · rfl
    · exfalso
      have h1 := head_of_rollback hsql
      have h2 := head_of_begin hbv
      rw [h1] at h2
      exact absurd (Option.some.inj h2) (by decide)
  have hmain : sqlite3_exec db sql o =
      ({db with transaction_has_began := false, transaction_baton := none},
       SQLITE_OK, false) := by
    unfold sqlite3_exec
    simp [hp, hb, hsql, reset_txn_on_db, hflag]
  refine ⟨hmain, ?_, ?_, ?_, ?_, ?_, ?_, ?_⟩ <;> (rw [hmain]; try rfl)

/-- A handle inside an active transaction. -/
def c8_db : DbState where
  strategy := .Websocket
  transaction_baton := some "b1"
  transaction_has_began := true
  last_insert_rowid := some 5
  rows_written := some 2
  update_hook := some 1
  insert_hook := none
  delete_hook := none

/-- A throw-away transport oracle (never consulted by a rollback). -/
def c8_oracle : StepOracle where
  batonResult := .ok "b2"
  send := ⟨.transportFailure "unused", .ok ⟨none, []⟩⟩

/-- C8, witness: the rollback theorem evaluated on the concrete
in-transaction handle and the SQL "ROLLBACK". -/
theorem C8_exec_rollback_local_witness :
    sqlite3_exec c8_db (String.toList "ROLLBACK") c8_oracle =
      ({c8_db with transaction_has_began := false, transaction_baton := none},
       SQLITE_OK, false) :=
  (C8_exec_rollback_local c8_db (String.toList "ROLLBACK") c8_oracle rfl
    (by decide)).1

/-- Inserting into the by-key insertion sort is a permutation of
consing. -/
lemma insertByKey_perm {R : Type} (p : Int × Value R)
    (l : List (Int × Value R)) : (insertByKey p l).Perm (p :: l) := by
  induction l with
  | nil => exact List.Perm.refl _
  | cons q rest ih =>
    simp only [insertByKey]
    by_cases h : q.1 ≤ p.1
    · rw [if_pos h]
      exact (ih.cons q).trans (List.Perm.swap p q rest)
    · rw [if_neg h]

/-- `sortByKey` permutes its input. -/
lemma sortByKey_perm {R : Type} (l : List (Int × Value R)) :
    (sortByKey l).Perm l := by
  induction l with
  | nil => exact List.Perm.refl _
  | cons p rest ih =>
    have hstep : sortByKey (p :: rest) = insertByKey p (sortByKey rest) := rfl
    rw [hstep]
    exact (insertByKey_perm p (sortByKey rest)).trans (ih.cons p)

/-- Insertion into a key-sorted list keeps the keys sorted. -/
lemma insertByKey_sorted {R : Type} (p : Int × Value R)
    (l : List (Int × Value R)) (h : (l.map Prod.fst).Sorted (· ≤ ·)) :
    ((insertByKey p l).map Prod.fst).Sorted (· ≤ ·) := by
  induction l with
  | nil => simp [insertByKey]
  | cons q rest ih =>
    rw [List.map_cons, List.sorted_cons] at h
    by_cases hq : q.1 ≤ p.1
    · simp only [insertByKey, if_pos hq, List.map_cons, List.sorted_cons]
      refine ⟨?_, ih h.2⟩
      intro b hb
      have hperm := (insertByKey_perm p rest).map Prod.fst
      have hb' : b ∈ (p :: rest).map Prod.fst := hperm.mem_iff.mp hb
      rw [List.map_cons] at hb'
      rcases List.mem_cons.mp hb' with h1 | h1
      · exact h1 ▸ hq
      · exact h.1 b h1
    · have hpq : p.1 ≤ q.1 := le_of_not_le hq
      simp only [insertByKey, if_neg hq, List.map_cons, List.sorted_cons]
      refine ⟨?_, ?_⟩
      · intro b hb
        rcases List.mem_cons.mp hb with h1 | h1
        · exact h1 ▸ hpq
        · exact hpq.trans (h.1 b h1)
      · exact h
    
/-- The keys of `sortByKey` come out ascending. -/
lemma sortByKey_sorted {R : Type} (l : List (Int × Value R)) :
    ((sortByKey l).map Prod.fst).Sorted (· ≤ ·) := by
  induction l with
  | nil => simp [sortByKey]
  | cons p rest ih =>
    have hstep : sortByKey (p :: rest) = insertByKey p (sortByKey rest) := rfl
    rw [hstep]
    exact insertByKey_sorted p (sortByKey rest) ih

/-- C7: serializing a bound-parameter map visits the entries in
ascending parameter-index order (a key-sorted permutation of the map's
entries) and maps each value to the claimed `{type, value}` object:
integers and floats are rendered as strings, text is carried as-is,
null becomes JSON null. -/
theorem C7_param_serialization {R : Type} [FloatModel R]
    (params : List (Int × Value R)) :
    ∃ l : List (Int × Value R),
      l.Perm params ∧
      (l.map Prod.fst).Sorted (· ≤ ·) ∧
      convert_params_to_json params =
        l.map (fun p =>
          match p.2 with
          | .Integer x => ⟨"integer", JsonPrim.str (toString x)⟩
          | .Real f => ⟨"float", JsonPrim.str (FloatModel.frender f)⟩
          | .Text s => ⟨"text", JsonPrim.str s⟩
          | .Null => ⟨"null", JsonPrim.null⟩) := by
  refine ⟨sortByKey params, sortByKey_perm params, sortByKey_sorted params, ?_⟩
  unfold convert_params_to_json
  apply List.map_congr_left
  intro a _
  cases a.2 <;> rfl

/-- C10: the column read-out functions are total and default-safe.
When there is no current row, when the cursor is stale (its index no
longer inside the buffered rows), or when the column index is negative
or at least the current row's width, `column_type` returns the NULL
type code, `column_int64` returns 0, `column_double` returns 0.0 and
`column_bytes` returns 0; no lookup is ever out of bounds (every miss
flows through `Option`).  The column index is a C `int` (so it lies in
the `i32` range) and a buffered row is shorter than `2^63` entries. -/
theorem C10_column_defaults {R : Type} [FloatModel R] (stmt : StmtState R)
    (ci : Int) (hci : -2147483648 ≤ ci ∧ ci < 2147483648) :
    (stmt.current_row = none →
       sqlite3_column_type stmt ci = SQLITE_NULL ∧
       sqlite3_column_int64 stmt ci = 0 ∧
       sqlite3_column_double stmt ci = FloatModel.fzero ∧
       sqlite3_column_bytes stmt ci = 0) ∧
    (∀ ri, stmt.current_row = some ri → stmt.result_rows.get? ri = none →
       sqlite3_column_type stmt ci = SQLITE_NULL ∧
       sqlite3_column_int64 stmt ci = 0 ∧
       sqlite3_column_double stmt ci = FloatModel.fzero ∧
       sqlite3_column_bytes stmt ci = 0) ∧
    (∀ ri row, stmt.current_row = some ri →
       stmt.result_rows.get? ri = some row →
       row.length < 9223372036854775808 →
       (ci < 0 ∨ (row.length : Int) ≤ ci) →
       sqlite3_column_type stmt ci = SQLITE_NULL ∧
       sqlite3_column_int64 stmt ci = 0 ∧
       sqlite3_column_double stmt ci = FloatModel.fzero ∧
       sqlite3_column_bytes stmt ci = 0) := by
  have hdef : column_cell stmt ci = none →
      sqlite3_column_type stmt ci = SQLITE_NULL ∧
      sqlite3_column_int64 stmt ci = 0 ∧
      sqlite3_column_double stmt ci = FloatModel.fzero ∧
      sqlite3_column_bytes stmt ci = 0 := by
    intro h
    unfold sqlite3_column_type sqlite3_column_int64 sqlite3_column_double
      sqlite3_column_bytes
    rw [h]
    exact ⟨rfl, rfl, rfl, rfl⟩
  refine ⟨?_, ?_, ?_⟩
  · intro h
    apply hdef
    unfold column_cell
    rw [h]
  · intro ri h1 h2
    apply hdef
    unfold column_cell
    simp only [h1, h2]
  · intro ri row h1 h2 hlen hrange
    apply hdef
    unfold column_cell
    simp only [h1, h2]
    apply List.get?_eq_none.mpr
    unfold i32_to_usize
    have h2' : (row.length : Int) < 9223372036854775808 := by exact_mod_cast hlen
    rcases hrange with hneg | hge
    · omega
    · omega

/-- A statement with no current row, to instantiate
`C10_column_defaults`. -/
def c10_stmt : StmtState Int where
  sql := String.toList "SELECT a FROM t"
  param_count := 0
  params := []
  execution_state := .Done
  result_rows := [[Value.Text "v"]]
  current_row := none
  column_names := ["a"]

/-- C10, witness: the defaults evaluated on a concrete statement with
no current row at column index 5, and on the stale-cursor and
out-of-range legs via a cursor-bearing variant. -/
theorem C10_column_defaults_witness :
    sqlite3_column_type c10_stmt 5 = SQLITE_NULL ∧
    sqlite3_column_int64 c10_stmt 5 = 0 ∧
    sqlite3_column_double c10_stmt 5 = FloatModel.fzero ∧
    sqlite3_column_bytes c10_stmt 5 = 0 :=
  (C10_column_defaults c10_stmt 5 (by decide)).1 rfl

lemma sqlite3_step_done {R : Type} [FloatModel R] (o : StepOracle) (db : DbState)
    (s : StmtState R) (h : s.execution_state = .Done) :
    sqlite3_step o db s = (db, s, SQLITE_DONE, false) := by
  unfold sqlite3_step
  rw [h]

lemma sqlite3_step_row {R : Type} [FloatModel R] (o : StepOracle) (db : DbState)
    (s : StmtState R) (h : s.execution_state = .Row)
    (hne : s.result_rows.isEmpty = false) :
    sqlite3_step o db s = (db, (iterate_rows s).1, (iterate_rows s).2, false) := by
  unfold sqlite3_step
  simp only [h]
  rw [if_neg (show ¬(ExecutionState.Row = ExecutionState.Prepared) from by decide)]
  rw [hne]
  rw [if_neg (show ¬(false = true) from by decide)]

/-- The statement as `execute_stmt` leaves it after a successful
execution that returned `q`: state `Executing` (about to be advanced by
`iterate_rows`), column names and decoded rows recorded. -/
def stmtExecuted {R : Type} [FloatModel R] (s : StmtState R) (q : QueryResult) :
    StmtState R :=
  {s with
     execution_state := .Executing,
     column_names := q.cols.map RemoteCol.name,
     result_rows := q.rows.map (List.map decodeCell)}

lemma execute_stmt_ok {R : Type} [FloatModel R] (db : DbState) (s : StmtState R)
    (o : SendOracle) (resp : RemoteSqliteResponse) (q : QueryResult)
    (hsend : (execute_sql_and_params db o).2 = .ok resp)
    (hresp : resp.results.head? = some ⟨.Execute q⟩) :
    execute_stmt db s o =
      ((get_execution_result (execute_sql_and_params db o).1 resp).1,
       {s with column_names := q.cols.map RemoteCol.name,
               result_rows := q.rows.map (List.map decodeCell)},
       .ok SQLITE_OK) := by
  have hq := (get_execution_result_execute (execute_sql_and_params db o).1 resp q
    hresp).1
  unfold execute_stmt
  split
  next db1 e heq =>
    rw [heq] at hsend
    exact absurd hsend (by simp)
  next db1 response heq =>
    have hr : response = resp := by
      rw [heq] at hsend
      simpa using hsend
    subst hr
    rw [heq] at hq ⊢
    split
    next db2 e heq2 =>
      rw [heq2] at hq
      exact absurd hq (by simp)
    next db2 q2 heq2 =>
      rw [heq2] at hq
      have hq2 : q2 = q := by simpa using hq
      subst hq2
      simp only [heq2]

lemma sqlite3_step_prepared_exec {R : Type} [FloatModel R] (o : StepOracle)
    (db : DbState) (s : StmtState R) (resp : RemoteSqliteResponse)
    (q : QueryResult)
    (hst : s.execution_state = .Prepared)
    (hrows : s.result_rows = [])
    (hnb : sql_is_begin_transaction (to_uppercase s.sql) = false)
    (hnc : sql_is_commit (to_uppercase s.sql) = false)
    (hsend : (execute_sql_and_params db o.send).2 = .ok resp)
    (hresp : resp.results.head? = some ⟨.Execute q⟩) :
    sqlite3_step o db s =
      ((get_execution_result (execute_sql_and_params db o.send).1 resp).1,
       (iterate_rows (stmtExecuted s q)).1,
       (iterate_rows (stmtExecuted s q)).2, true) := by
  unfold sqlite3_step
  simp only [hst, if_true, hrows, List.isEmpty_nil, hnb, hnc, Bool.false_eq_true,
    if_false, eq_self_iff_true]
  rw [execute_stmt_ok db _ o.send resp q hsend hresp]
  rfl

lemma iterate_rows_none_nonempty {R : Type} (s : StmtState R)
    (hc : s.current_row = none) (hne : s.result_rows.isEmpty = false) :
    iterate_rows s =
      ({s with current_row := some 0, execution_state := .Row}, SQLITE_ROW) := by
  unfold iterate_rows
  simp only [hc, hne, Bool.false_eq_true, if_false]

lemma iterate_rows_none_empty {R : Type} (s : StmtState R)
    (hc : s.current_row = none) (he : s.result_rows.isEmpty = true) :
    iterate_rows s = ({s with execution_state := .Done}, SQLITE_DONE) := by
  unfold iterate_rows
  simp only [hc, he, if_true]

lemma iterate_rows_some_lt {R : Type} (s : StmtState R) (i : Nat)
    (hc : s.current_row = some i) (hlt : i + 1 < s.result_rows.length) :
    iterate_rows s =
      ({s with current_row := some (i + 1), execution_state := .Row},
       SQLITE_ROW) := by
  unfold iterate_rows
  simp only [hc]
  rw [if_pos hlt]

lemma iterate_rows_some_ge {R : Type} (s : StmtState R) (i : Nat)
    (hc : s.current_row = some i) (hge : ¬ i + 1 < s.result_rows.length) :
    iterate_rows s =
      ({s with current_row := none, execution_state := .Done}, SQLITE_DONE) := by
  unfold iterate_rows
  simp only [hc]
  rw [if_neg hge]

/-- Iterated stepping: the handle/statement pair after `k` calls to
`sqlite3_step`. -/
def runSteps {R : Type} [FloatModel R] (o : StepOracle)
    (p : DbState × StmtState R) : Nat → DbState × StmtState R
  | 0 => p
  | k + 1 =>
    ((sqlite3_step o (runSteps o p k).1 (runSteps o p k).2).1,
     (sqlite3_step o (runSteps o p k).1 (runSteps o p k).2).2.1)

/-- The result code of the `(k+1)`-th step (after `k` prior steps). -/
def stepCode {R : Type} [FloatModel R] (o : StepOracle)
    (p : DbState × StmtState R) (k : Nat) : Int :=
  (sqlite3_step o (runSteps o p k).1 (runSteps o p k).2).2.2.1

/-- Whether the `(k+1)`-th step entered the execution dispatch. -/
def stepExecuted {R : Type} [FloatModel R] (o : StepOracle)
    (p : DbState × StmtState R) (k : Nat) : Bool :=
  (sqlite3_step o (runSteps o p k).1 (runSteps o p k).2).2.2.2

lemma runSteps_zero {R : Type} [FloatModel R] (o : StepOracle)
    (p : DbState × StmtState R) : runSteps o p 0 = p := rfl

lemma runSteps_succ {R : Type} [FloatModel R] (o : StepOracle)
    (p : DbState × StmtState R) (k : Nat) :
    runSteps o p (k + 1) =
      ((sqlite3_step o (runSteps o p k).1 (runSteps o p k).2).1,
       (sqlite3_step o (runSteps o p k).1 (runSteps o p k).2).2.1) := rfl

/-- Once a run reaches a `Done` statement, every further step is a
no-op returning `SQLITE_DONE` without entering the execution dispatch. -/
lemma done_tail {R : Type} [FloatModel R] (o : StepOracle)
    (p : DbState × StmtState R) (n : Nat)
    (h : (runSteps o p n).2.execution_state = .Done) :
    ∀ m, n ≤ m → runSteps o p m = runSteps o p n ∧
      stepCode o p m = SQLITE_DONE ∧ stepExecuted o p m = false := by
  intro m
  induction m with
  | zero =>
    intro hm
    have hn : n = 0 := by omega
    subst hn
    have hdone := sqlite3_step_done o (runSteps o p 0).1 (runSteps o p 0).2 h
    exact ⟨rfl, by unfold stepCode; simp only [hdone],
           by unfold stepExecuted; simp only [hdone]⟩
  | succ k ih =>
    intro hm
    by_cases hk : n ≤ k
    · obtain ⟨ihr, _, _⟩ := ih hk
      have hstatek : (runSteps o p k).2.execution_state = .Done := by
        rw [ihr]; exact h
      have hdonek := sqlite3_step_done o (runSteps o p k).1 (runSteps o p k).2
        hstatek
      have hr1 : runSteps o p (k + 1) = runSteps o p n := by
        rw [runSteps_succ]
        simp only [hdonek]
        exact ihr
      have hstate1 : (runSteps o p (k + 1)).2.execution_state = .Done := by
        rw [hr1]; exact h
      have hdone1 := sqlite3_step_done o (runSteps o p (k + 1)).1
        (runSteps o p (k + 1)).2 hstate1
      exact ⟨hr1, by unfold stepCode; simp only [hdone1],
             by unfold stepExecuted; simp only [hdone1]⟩
    · have hkn : n = k + 1 := by omega
      subst hkn
      have hdone := sqlite3_step_done o (runSteps o p (k + 1)).1
        (runSteps o p (k + 1)).2 h
      exact ⟨rfl, by unfold stepCode; simp only [hdone],
             by unfold stepExecuted; simp only [hdone]⟩

/-- The executed statement with its cursor and state set, the shape a
run of successful steps cycles through. -/
def stmtCursor {R : Type} [FloatModel R] (s : StmtState R) (q : QueryResult)
    (cur : Option Nat) (st : ExecutionState) : StmtState R :=
  {stmtExecuted s q with current_row := cur, execution_state := st}

/-- C1: starting from a freshly prepared statement whose SQL is not a
BEGIN/COMMIT, when the send succeeds and the server answers with the
rows of `q`, the first `N = q.rows.length` steps return `SQLITE_ROW`
with the cursor on row `k` after the `(k+1)`-th step, the `(N+1)`-th
step returns `SQLITE_DONE`, and from then on the statement is `Done`
and every further step returns `SQLITE_DONE` without re-entering the
execution dispatch or changing any state. -/
theorem C1_select_step_trace {R : Type} [FloatModel R] (o : StepOracle)
    (db : DbState) (s : StmtState R) (resp : RemoteSqliteResponse)
    (q : QueryResult)
    (hst : s.execution_state = .Prepared)
    (hrows : s.result_rows = [])
    (hcur : s.current_row = none)
    (hnb : sql_is_begin_transaction (to_uppercase s.sql) = false)
    (hnc : sql_is_commit (to_uppercase s.sql) = false)
    (hsend : (execute_sql_and_params db o.send).2 = .ok resp)
    (hresp : resp.results.head? = some ⟨.Execute q⟩) :
    (∀ k, k < q.rows.length →
       stepCode o (db, s) k = SQLITE_ROW ∧
       (runSteps o (db, s) (k + 1)).2.current_row = some k) ∧
    stepCode o (db, s) q.rows.length = SQLITE_DONE ∧
    (runSteps o (db, s) (q.rows.length + 1)).2.execution_state = .Done ∧
    (∀ m, q.rows.length + 1 ≤ m →
       runSteps o (db, s) m = runSteps o (db, s) (q.rows.length + 1) ∧
       stepCode o (db, s) m = SQLITE_DONE ∧
       stepExecuted o (db, s) m = false) := by
  have hfirst := sqlite3_step_prepared_exec o db s resp q hst hrows hnb hnc
    hsend hresp
  have hcur' : (stmtExecuted s q).current_row = none := hcur
  by_cases hN0 : q.rows.length = 0
  · -- an empty result set: the very first step is already DONE
    have hqnil : q.rows = [] := List.length_eq_zero.mp hN0
    have hempty : ((stmtExecuted s q).result_rows).isEmpty = true := by
      show (q.rows.map (List.map decodeCell)).isEmpty = true
      rw [hqnil]
      rfl
    have hiter := iterate_rows_none_empty (stmtExecuted s q) hcur' hempty
    have hstep0 : stepCode o (db, s) 0 = SQLITE_DONE := by
      unfold stepCode
      rw [runSteps_zero]
      show (sqlite3_step o db s).2.2.1 = _
      rw [hfirst, hiter]
    have hrun1 : runSteps o (db, s) 1 =
        ((get_execution_result (execute_sql_and_params db o.send).1 resp).1,
         {stmtExecuted s q with execution_state := ExecutionState.Done}) := by
      rw [runSteps_succ, runSteps_zero]
      show ((sqlite3_step o db s).1, (sqlite3_step o db s).2.1) = _
      rw [hfirst, hiter]
    have hstate1 : (runSteps o (db, s) 1).2.execution_state = .Done := by
      rw [hrun1]
    have htail := done_tail o (db, s) 1 hstate1
    rw [hN0]
    refine ⟨?_, ?_, ?_, ?_⟩
    · intro k hk
      omega
    · exact hstep0
    · exact hstate1
    · exact fun m hm => htail m hm
  · -- at least one row
    have hpos : 0 < q.rows.length := Nat.pos_of_ne_zero hN0
    have hne : ((stmtExecuted s q).result_rows).isEmpty = false := by
      show (q.rows.map (List.map decodeCell)).isEmpty = false
      cases hqr : q.rows with
      | nil => rw [hqr] at hpos; simp at hpos
      | cons a l => rfl
    have hlenr : ((stmtExecuted s q).result_rows).length = q.rows.length := by
      show (q.rows.map (List.map decodeCell)).length = _
      exact List.length_map _ _
    have hne2 : ∀ k : Nat,
        ((stmtCursor s q (some k) ExecutionState.Row).result_rows).isEmpty =
          false := fun _ => hne
    have hlen2 : ∀ k : Nat,
        ((stmtCursor s q (some k) ExecutionState.Row).result_rows).length =
          q.rows.length := fun _ => hlenr
    have hiter0 := iterate_rows_none_nonempty (stmtExecuted s q) hcur' hne
    have hiter0' : iterate_rows (stmtExecuted s q) =
        (stmtCursor s q (some 0) ExecutionState.Row, SQLITE_ROW) := hiter0
    have hrun1 : runSteps o (db, s) 1 =
        ((get_execution_result (execute_sql_and_params db o.send).1 resp).1,
         stmtCursor s q (some 0) ExecutionState.Row) := by
      rw [runSteps_succ, runSteps_zero]
      show ((sqlite3_step o db s).1, (sqlite3_step o db s).2.1) = _
      rw [hfirst, hiter0']
    have hstepRow : ∀ k : Nat, sqlite3_step o
        (get_execution_result (execute_sql_and_params db o.send).1 resp).1
        (stmtCursor s q (some k) ExecutionState.Row) =
        ((get_execution_result (execute_sql_and_params db o.send).1 resp).1,
         (iterate_rows (stmtCursor s q (some k) ExecutionState.Row)).1,
         (iterate_rows (stmtCursor s q (some k) ExecutionState.Row)).2,
         false) :=
      fun k => sqlite3_step_row o _ _ rfl (hne2 k)
    have hitrLt : ∀ k : Nat, k + 1 < q.rows.length →
        iterate_rows (stmtCursor s q (some k) ExecutionState.Row) =
          (stmtCursor s q (some (k + 1)) ExecutionState.Row, SQLITE_ROW) := by
      intro k hk
      have := iterate_rows_some_lt (stmtCursor s q (some k) ExecutionState.Row)
        k rfl (by rw [hlen2 k]; omega)
      exact this
    have key : ∀ k, k < q.rows.length →
        runSteps o (db, s) (k + 1) =
          ((get_execution_result (execute_sql_and_params db o.send).1 resp).1,
           stmtCursor s q (some k) ExecutionState.Row) := by
      intro k
      induction k with
      | zero => exact fun _ => hrun1
      | succ j ihj =>
        intro hj
        have hjlt : j < q.rows.length := by omega
        have ihr := ihj hjlt
        rw [runSteps_succ, ihr]
        simp only [hstepRow j, hitrLt j hj]
    have conj1 : ∀ k, k < q.rows.length →
        stepCode o (db, s) k = SQLITE_ROW ∧
        (runSteps o (db, s) (k + 1)).2.current_row = some k := by
      intro k hk
      refine ⟨?_, by rw [key k hk]; rfl⟩
      cases k with
      | zero =>
        unfold stepCode
        rw [runSteps_zero]
        show (sqlite3_step o db s).2.2.1 = _
        rw [hfirst, hiter0']
      | succ j =>
        have hjlt : j < q.rows.length := by omega
        unfold stepCode
        simp only [key j hjlt, hstepRow j, hitrLt j hk]
    have hNpred : q.rows.length - 1 + 1 = q.rows.length := by omega
    have hlast := key (q.rows.length - 1) (by omega)
    rw [hNpred] at hlast
    have hitrGe : iterate_rows
        (stmtCursor s q (some (q.rows.length - 1)) ExecutionState.Row) =
        (stmtCursor s q none ExecutionState.Done, SQLITE_DONE) := by
      have := iterate_rows_some_ge
        (stmtCursor s q (some (q.rows.length - 1)) ExecutionState.Row)
        (q.rows.length - 1) rfl
        (by rw [hlen2 (q.rows.length - 1)]; omega)
      exact this
    have conj2 : stepCode o (db, s) q.rows.length = SQLITE_DONE := by
      unfold stepCode
      simp only [hlast, hstepRow (q.rows.length - 1), hitrGe]
    have hrunN1 : runSteps o (db, s) (q.rows.length + 1) =
        ((get_execution_result (execute_sql_and_params db o.send).1 resp).1,
         stmtCursor s q none ExecutionState.Done) := by
      rw [runSteps_succ]
      simp only [hlast, hstepRow (q.rows.length - 1), hitrGe]
    have hstateN1 : (runSteps o (db, s) (q.rows.length + 1)).2.execution_state =
        .Done := by
      rw [hrunN1]
      rfl
    exact ⟨conj1, conj2, hstateN1,
      done_tail o (db, s) (q.rows.length + 1) hstateN1⟩

/-- A fresh handle on the HTTP strategy for the step-trace witness. -/
def c1_db : DbState where
  strategy := .Http
  transaction_baton := none
  transaction_has_began := false
  last_insert_rowid := none
  rows_written := none
  update_hook := none
  insert_hook := none
  delete_hook := none

/-- A two-row server answer: one integer cell per row. -/
def c1_q : QueryResult where
  cols := [⟨"x"⟩]
  rows := [[⟨"integer", some (.str "7")⟩], [⟨"integer", some (.num 8)⟩]]
  last_insert_rowid := none
  rows_written := none

/-- The response wrapping `c1_q`. -/
def c1_resp : RemoteSqliteResponse where
  baton := none
  results := [⟨.Execute c1_q⟩]

/-- A transport oracle whose HTTP leg answers with `c1_resp`. -/
def c1_oracle : StepOracle where
  batonResult := .ok "unused"
  send := ⟨.transportFailure "unused", .ok c1_resp⟩

/-- A freshly prepared SELECT statement. -/
def c1_stmt : StmtState Int where
  sql := String.toList "SELECT x FROM t"
  param_count := 0
  params := []
  execution_state := .Prepared
  result_rows := []
  current_row := none
  column_names := []

/-- C1, witness: the step trace on the concrete two-row SELECT — two
`SQLITE_ROW` steps, then `SQLITE_DONE`, and `SQLITE_DONE` again on the
step taken in the `Done` state, without re-execution. -/
theorem C1_select_step_trace_witness :
    stepCode c1_oracle (c1_db, c1_stmt) 0 = SQLITE_ROW ∧
    stepCode c1_oracle (c1_db, c1_stmt) 1 = SQLITE_ROW ∧
    stepCode c1_oracle (c1_db, c1_stmt) 2 = SQLITE_DONE ∧
    stepCode c1_oracle (c1_db, c1_stmt) 3 = SQLITE_DONE ∧
    stepExecuted c1_oracle (c1_db, c1_stmt) 3 = false := by
  have h := C1_select_step_trace c1_oracle c1_db c1_stmt c1_resp c1_q rfl rfl
    rfl (by decide) (by decide) rfl rfl
  exact ⟨(h.1 0 (by decide)).1, (h.1 1 (by decide)).1, h.2.1,
    (h.2.2.2 3 (by decide)).2.1, (h.2.2.2 3 (by decide)).2.2⟩
